import Mathlib

/-!
Verification of the Elgato Key Light extension core (discovery and control
operations), shallowly embedded in Lean.

The embedding follows `src/elgato.ts`:

* `KeylightConfig`, the registry entries produced by discovery;
* a `World` models the network of devices: the state each device currently
  reports, and whether HTTP GET / PUT requests against it succeed;
* `getKeyLight` / `updateKeyLight` mirror the two private REST helpers;
* the five control operations (`toggle`, `increaseBrightness`,
  `decreaseBrightness`, `increaseTemperature`, `decreaseTemperature`) are
  loops over the registry returning the final world, the list of network
  calls attempted, and either the last computed value (`Option`, since an
  empty registry yields `undefined`) or the thrown error message;
* Bonjour discovery is modelled as a transition system `discoveryStep` over
  `DiscoveryState` (registry, browser-destroyed flag, and the promise's
  settlement, which is first-write-wins as for a JS promise), driven by
  announcement and timer-fire events;
* the static-IP branch of `discover` is `discoverStatic`.

JS numbers are modelled as `ℚ` (the temperature step 201/20 is not an
integer, so integers would be unfaithful).
-/

namespace Elgato

/-- `WARM_TEMPERATURE = 344` (2900k), the warm end of the temperature domain. -/
def WARM_TEMPERATURE : ℚ := 344

/-- `COLD_TEMPERATURE = 143` (7000k), the cold end of the temperature domain. -/
def COLD_TEMPERATURE : ℚ := 143

/-- `TEMPERATURE_STEP = (WARM_TEMPERATURE - COLD_TEMPERATURE) / 20`. -/
def TEMPERATURE_STEP : ℚ := (WARM_TEMPERATURE - COLD_TEMPERATURE) / 20

/-- Config for a single keylight: `{ ip: string; port: number }`. -/
structure KeylightConfig where
  ip : String
  port : Nat
deriving DecidableEq, Repr

/-- State reported by a device (`response.data.lights[0]`): `on`,
`brightness`, `temperature`. -/
structure LightState where
  isOn : Bool
  brightness : ℚ
  temperature : ℚ
deriving DecidableEq, Repr

/-- The partial-update body of `updateKeyLight`:
`{ brightness?: number; temperature?: number; on?: boolean }`. -/
structure UpdateOptions where
  brightness : Option ℚ := none
  temperature : Option ℚ := none
  isOn : Option Bool := none
deriving DecidableEq, Repr

/-- The network of devices: the state each address currently reports and
whether a GET (`getOk`) or PUT (`putOk`) against that address succeeds. -/
@[ext] structure World where
  state : KeylightConfig → LightState
  getOk : KeylightConfig → Bool
  putOk : KeylightConfig → Bool

/-- The URL `http://<ip>:<port>/elgato/lights` used by both REST helpers. -/
def url (c : KeylightConfig) : String :=
  "http://" ++ c.ip ++ ":" ++ toString c.port ++ "/elgato/lights"

/-- `getKeyLight`: GET the device state; on transport failure, throw
`Failed to fetch Key Light state from <url>`. -/
def getKeyLight (w : World) (c : KeylightConfig) : Except String LightState :=
  if w.getOk c then .ok (w.state c)
  else .error ("Failed to fetch Key Light state from " ++ url c)

/-- Server-side merge performed by the device: fields present in the PUT
body replace the current ones, absent fields are untouched. -/
def applyOptions (s : LightState) (o : UpdateOptions) : LightState :=
  { isOn := o.isOn.getD s.isOn
    brightness := o.brightness.getD s.brightness
    temperature := o.temperature.getD s.temperature }

/-- The world after a successful PUT of `o` against `c`: every device at an
address equal to `c` merges in the update, every other device is untouched. -/
def pushWorld (w : World) (c : KeylightConfig) (o : UpdateOptions) : World :=
  { w with state := fun d => if d = c then applyOptions (w.state d) o else w.state d }

/-- `updateKeyLight`: PUT a partial update; on transport failure, throw
`Failed to update Key Light state at <url>` and leave the device unchanged. -/
def updateKeyLight (w : World) (c : KeylightConfig) (o : UpdateOptions) :
    Except String World :=
  if w.putOk c then .ok (pushWorld w c o)
  else .error ("Failed to update Key Light state at " ++ url c)

/-- A network call attempted by a control operation. -/
inductive NetEvent where
  | fetch (c : KeylightConfig)
  | push (c : KeylightConfig)
deriving DecidableEq, Repr

/-- The endpoint a network call was addressed to. -/
def NetEvent.config : NetEvent → KeylightConfig
  | .fetch c => c
  | .push c => c

/-- Result of a control operation: the final world, the network calls
attempted in order, and either the thrown error message or the value of the
operation's accumulator variable (`undefined`, i.e. `none`, when the
registry is empty). -/
abbrev OpResult (α : Type) := World × List NetEvent × Except String (Option α)

/-- Loop body of `toggle`: per endpoint, fetch the state, negate `on`, push
it; any failure throws `Failed toggling Key Light at <ip>` and aborts. -/
def toggleLoop (w : World) (acc : Option Bool) :
    List KeylightConfig → OpResult Bool
  | [] => (w, [], .ok acc)
  | k :: rest =>
    match getKeyLight w k with
    | .error _ => (w, [.fetch k], .error ("Failed toggling Key Light at " ++ k.ip))
    | .ok state =>
      let newState := !state.isOn
      match updateKeyLight w k { isOn := some newState } with
      | .error _ =>
        (w, [.fetch k, .push k], .error ("Failed toggling Key Light at " ++ k.ip))
      | .ok w1 =>
        let r := toggleLoop w1 (some newState) rest
        (r.1, .fetch k :: .push k :: r.2.1, r.2.2)

/-- `toggle`: iterate the registry negating each device's power. -/
def toggle (w : World) (registry : List KeylightConfig) : OpResult Bool :=
  toggleLoop w none registry

/-- Loop body of `increaseBrightness`:
`newBrightness = Math.min(state.brightness + 5, 100)`. -/
def increaseBrightnessLoop (w : World) (acc : Option ℚ) :
    List KeylightConfig → OpResult ℚ
  | [] => (w, [], .ok acc)
  | k :: rest =>
    match getKeyLight w k with
    | .error _ => (w, [.fetch k], .error ("Failed increasing brightness for " ++ k.ip))
    | .ok state =>
      let newBrightness := min (state.brightness + 5) 100
      match updateKeyLight w k { brightness := some newBrightness } with
      | .error _ =>
        (w, [.fetch k, .push k], .error ("Failed increasing brightness for " ++ k.ip))
      | .ok w1 =>
        let r := increaseBrightnessLoop w1 (some newBrightness) rest
        (r.1, .fetch k :: .push k :: r.2.1, r.2.2)

/-- `increaseBrightness` over the registry. -/
def increaseBrightness (w : World) (registry : List KeylightConfig) : OpResult ℚ :=
  increaseBrightnessLoop w none registry

/-- Loop body of `decreaseBrightness`:
`newBrightness = Math.max(state.brightness - 5, 0)`. -/
def decreaseBrightnessLoop (w : World) (acc : Option ℚ) :
    List KeylightConfig → OpResult ℚ
  | [] => (w, [], .ok acc)
  | k :: rest =>
    match getKeyLight w k with
    | .error _ => (w, [.fetch k], .error ("Failed decreasing brightness for " ++ k.ip))
    | .ok state =>
      let newBrightness := max (state.brightness - 5) 0
      match updateKeyLight w k { brightness := some newBrightness } with
      | .error _ =>
        (w, [.fetch k, .push k], .error ("Failed decreasing brightness for " ++ k.ip))
      | .ok w1 =>
        let r := decreaseBrightnessLoop w1 (some newBrightness) rest
        (r.1, .fetch k :: .push k :: r.2.1, r.2.2)

/-- `decreaseBrightness` over the registry. -/
def decreaseBrightness (w : World) (registry : List KeylightConfig) : OpResult ℚ :=
  decreaseBrightnessLoop w none registry

/-- Loop body of `increaseTemperature`:
`newTemperature = Math.min(state.temperature + TEMPERATURE_STEP, WARM_TEMPERATURE)`. -/
def increaseTemperatureLoop (w : World) (acc : Option ℚ) :
    List KeylightConfig → OpResult ℚ
  | [] => (w, [], .ok acc)
  | k :: rest =>
    match getKeyLight w k with
    | .error _ => (w, [.fetch k], .error ("Failed increasing temperature for " ++ k.ip))
    | .ok state =>
      let newTemperature := min (state.temperature + TEMPERATURE_STEP) WARM_TEMPERATURE
      match updateKeyLight w k { temperature := some newTemperature } with
      | .error _ =>
        (w, [.fetch k, .push k], .error ("Failed increasing temperature for " ++ k.ip))
      | .ok w1 =>
        let r := increaseTemperatureLoop w1 (some newTemperature) rest
        (r.1, .fetch k :: .push k :: r.2.1, r.2.2)

/-- `increaseTemperature` over the registry. -/
def increaseTemperature (w : World) (registry : List KeylightConfig) : OpResult ℚ :=
  increaseTemperatureLoop w none registry

/-- Loop body of `decreaseTemperature`:
`newTemperature = Math.max(state.temperature - TEMPERATURE_STEP, COLD_TEMPERATURE)`. -/
def decreaseTemperatureLoop (w : World) (acc : Option ℚ) :
    List KeylightConfig → OpResult ℚ
  | [] => (w, [], .ok acc)
  | k :: rest =>
    match getKeyLight w k with
    | .error _ => (w, [.fetch k], .error ("Failed decreasing temperature for " ++ k.ip))
    | .ok state =>
      let newTemperature := max (state.temperature - TEMPERATURE_STEP) COLD_TEMPERATURE
      match updateKeyLight w k { temperature := some newTemperature } with
      | .error _ =>
        (w, [.fetch k, .push k], .error ("Failed decreasing temperature for " ++ k.ip))
      | .ok w1 =>
        let r := decreaseTemperatureLoop w1 (some newTemperature) rest
        (r.1, .fetch k :: .push k :: r.2.1, r.2.2)

/-- `decreaseTemperature` over the registry. -/
def decreaseTemperature (w : World) (registry : List KeylightConfig) : OpResult ℚ :=
  decreaseTemperatureLoop w none registry

/-- Static branch of `discover`: split the preference string on commas, trim
each entry, and build one config per entry on port 9123.  The second
component records the network calls made: none. -/
def discoverStatic (ips : String) : List KeylightConfig × List NetEvent :=
  (((ips.splitOn ",").map (fun s => s.trim)).map
    (fun ip => { ip := ip, port := 9123 }), [])

/-- State of one Bonjour discovery run: the registry (`KeyLight.keyLights`),
whether `bonjour.destroy()` has been called, and the settlement of the
`find` promise (a JS promise settles at most once; the first `resolve` or
`reject` wins). -/
structure DiscoveryState where
  registry : List KeylightConfig
  browserDestroyed : Bool
  settled : Option (Except String (List KeylightConfig))
deriving Repr

/-- Whether the discovery promise has been rejected. -/
def DiscoveryState.rejected (s : DiscoveryState) : Bool :=
  match s.settled with
  | some (.error _) => true
  | _ => false

/-- Whether the discovery promise has been resolved. -/
def DiscoveryState.resolved (s : DiscoveryState) : Bool :=
  match s.settled with
  | some (.ok _) => true
  | _ => false

/-- Events driving one Bonjour discovery run: a service announcement
(carrying `service.referer?.address` and `service.port`, either possibly
absent), or the 5-second timer firing. -/
inductive DiscoveryEvent where
  | announce (addr : Option String) (port : Option Nat)
  | timerFire
deriving DecidableEq, Repr

/-- Error message of the zero-found timeout. -/
def noDevicesMsg : String := "Cannot discover any Key Lights in the network"

/-- Settle the promise, first write wins (JS promise semantics). -/
def settle (s : DiscoveryState) (r : Except String (List KeylightConfig)) :
    DiscoveryState :=
  match s.settled with
  | some _ => s
  | none => { s with settled := some r }

/-- One step of Bonjour discovery.  An announcement is delivered only while
the browser is alive; if it carries an address and a port, the config is
appended to the registry, and when the registry length reaches `count` the
promise is resolved with the registry and the browser destroyed.  The timer
rejects the promise only when the registry is still empty (and does not
destroy the browser). -/
def discoveryStep (count : Nat) (s : DiscoveryState) :
    DiscoveryEvent → DiscoveryState
  | .announce addr port =>
    if s.browserDestroyed then s
    else
      match addr, port with
      | some a, some p =>
        let registry := s.registry ++ [{ ip := a, port := p }]
        let s1 := { s with registry := registry }
        if registry.length = count then
          { settle s1 (.ok registry) with browserDestroyed := true }
        else s1
      | _, _ => s
  | .timerFire =>
    if s.registry.length = 0 then settle s (.error noDevicesMsg) else s

/-- Discovery starts with `KeyLight.keyLights = []`, a live browser and a
pending promise. -/
def discoveryInit : DiscoveryState :=
  { registry := [], browserDestroyed := false, settled := none }

/-- A whole discovery run: fold the events over the initial state. -/
def runDiscovery (count : Nat) (evs : List DiscoveryEvent) : DiscoveryState :=
  evs.foldl (discoveryStep count) discoveryInit

/-- A device world whose every address reports the same state and is fully
reachable; used to instantiate the general theorems. -/
def constWorld (o : Bool) (b t : ℚ) : World :=
  { state := fun _ => { isOn := o, brightness := b, temperature := t }
    getOk := fun _ => true
    putOk := fun _ => true }

/-- A world like `constWorld` but whose GET requests all fail. -/
def fetchFailWorld (o : Bool) (b t : ℚ) : World :=
  { constWorld o b t with getOk := fun _ => false }

/-- A world like `constWorld` but whose PUT requests all fail. -/
def pushFailWorld (o : Bool) (b t : ℚ) : World :=
  { constWorld o b t with putOk := fun _ => false }

/-- A concrete endpoint for the concrete instances below. -/
def ep1 : KeylightConfig := { ip := "1.2.3.4", port := 9123 }

/-- A second concrete endpoint. -/
def ep2 : KeylightConfig := { ip := "5.6.7.8", port := 9123 }

/-- Every device of the world reports a brightness in the declared domain
`[0, 100]`. -/
def brightnessInDomain (w : World) : Prop :=
  ∀ c, 0 ≤ (w.state c).brightness ∧ (w.state c).brightness ≤ 100

/-- Every device of the world reports a color temperature in the declared
domain `[COLD_TEMPERATURE, WARM_TEMPERATURE]`. -/
def temperatureInDomain (w : World) : Prop :=
  ∀ c, COLD_TEMPERATURE ≤ (w.state c).temperature ∧
       (w.state c).temperature ≤ WARM_TEMPERATURE

/-! ### Reduction lemmas for the REST helpers -/

lemma getKeyLight_ok {w : World} {c : KeylightConfig} (h : w.getOk c = true) :
    getKeyLight w c = .ok (w.state c) := by
  simp [getKeyLight, h]

lemma getKeyLight_err {w : World} {c : KeylightConfig} (h : w.getOk c = false) :
    getKeyLight w c = .error ("Failed to fetch Key Light state from " ++ url c) := by
  simp [getKeyLight, h]

lemma updateKeyLight_err {w : World} {c : KeylightConfig} (o : UpdateOptions)
    (h : w.putOk c = false) :
    updateKeyLight w c o = .error ("Failed to update Key Light state at " ++ url c) := by
  simp [updateKeyLight, h]

lemma updateKeyLight_ok {w : World} {c : KeylightConfig} (o : UpdateOptions)
    (h : w.putOk c = true) :
    updateKeyLight w c o = .ok (pushWorld w c o) := by
  simp [updateKeyLight, h]

lemma pushWorld_state_self (w : World) (c : KeylightConfig) (o : UpdateOptions) :
    (pushWorld w c o).state c = applyOptions (w.state c) o := by
  simp [pushWorld]

lemma pushWorld_state_other (w : World) (c d : KeylightConfig) (o : UpdateOptions)
    (h : d ≠ c) : (pushWorld w c o).state d = w.state d := by
  simp [pushWorld, h]

/-! ### Toggle as power negation -/

/-- Negate the power of every address equal to `k`, leaving everything else
of the world untouched.  A successful fetch-negate-push cycle of `toggle`
acts on the world exactly as `negOn k`. -/
def negOn (k : KeylightConfig) (w : World) : World :=
  { w with state := fun d =>
      if d = k then { w.state d with isOn := !(w.state d).isOn } else w.state d }

lemma negOn_getOk (k : KeylightConfig) (w : World) : (negOn k w).getOk = w.getOk := rfl

lemma negOn_putOk (k : KeylightConfig) (w : World) : (negOn k w).putOk = w.putOk := rfl

lemma negOn_negOn (k : KeylightConfig) (w : World) : negOn k (negOn k w) = w := by
  have hs : (negOn k (negOn k w)).state = w.state := by
    funext c
    by_cases h : c = k
    · subst h; simp [negOn]
    · simp [negOn, h]
  exact World.ext hs rfl rfl

lemma negOn_comm (k k' : KeylightConfig) (w : World) :
    negOn k (negOn k' w) = negOn k' (negOn k w) := by
  have hs : (negOn k (negOn k' w)).state = (negOn k' (negOn k w)).state := by
    funext c
    by_cases h : c = k
    · subst h
      by_cases h' : c = k'
      · subst h'; simp [negOn]
      · simp [negOn, h']
    · by_cases h' : c = k'
      · subst h'; simp [negOn, h]
      · simp [negOn, h, h']
  exact World.ext hs rfl rfl

/-- The push performed by `toggle` for endpoint `k` turns the world into
`negOn k w`. -/
lemma toggle_update_eq (w : World) (k : KeylightConfig) (h : w.putOk k = true) :
    updateKeyLight w k { isOn := some (!(w.state k).isOn) } = .ok (negOn k w) := by
  rw [updateKeyLight_ok _ h]
  congr 1
  have hs : (fun d => if d = k then
      applyOptions (w.state d) { isOn := some (!(w.state k).isOn) } else w.state d) =
      (negOn k w).state := by
    funext c
    by_cases hc : c = k
    · subst hc; simp [negOn, applyOptions]
    · simp [negOn, applyOptions, hc]
  exact World.ext hs rfl rfl

/-- Unfolding of `toggleLoop` when the head endpoint is fully reachable. -/
lemma toggleLoop_cons_ok (w : World) (k : KeylightConfig) (acc : Option Bool)
    (rest : List KeylightConfig) (hg : w.getOk k = true) (hp : w.putOk k = true) :
    toggleLoop w acc (k :: rest) =
      ((toggleLoop (negOn k w) (some (!(w.state k).isOn)) rest).1,
       .fetch k :: .push k :: (toggleLoop (negOn k w) (some (!(w.state k).isOn)) rest).2.1,
       (toggleLoop (negOn k w) (some (!(w.state k).isOn)) rest).2.2) := by
  simp [toggleLoop, getKeyLight_ok hg, toggle_update_eq w k hp]

/-- Unfolding of `toggleLoop` when the head endpoint's fetch fails. -/
lemma toggleLoop_cons_getFail (w : World) (k : KeylightConfig) (acc : Option Bool)
    (rest : List KeylightConfig) (hg : w.getOk k = false) :
    toggleLoop w acc (k :: rest) =
      (w, [.fetch k], .error ("Failed toggling Key Light at " ++ k.ip)) := by
  simp [toggleLoop, getKeyLight_err hg]

/-- Unfolding of `toggleLoop` when the head endpoint's push fails. -/
lemma toggleLoop_cons_putFail (w : World) (k : KeylightConfig) (acc : Option Bool)
    (rest : List KeylightConfig) (hg : w.getOk k = true) (hp : w.putOk k = false) :
    toggleLoop w acc (k :: rest) =
      (w, [.fetch k, .push k], .error ("Failed toggling Key Light at " ++ k.ip)) := by
  simp [toggleLoop, getKeyLight_ok hg, updateKeyLight_err _ hp]

/-- `toggleLoop` does not change which endpoints are reachable. -/
lemma toggleLoop_reach (registry : List KeylightConfig) :
    ∀ (w : World) (acc : Option Bool),
      (toggleLoop w acc registry).1.getOk = w.getOk ∧
      (toggleLoop w acc registry).1.putOk = w.putOk := by
  induction registry with
  | nil => intro w acc; exact ⟨rfl, rfl⟩
  | cons k rest ih =>
    intro w acc
    cases hg : w.getOk k with
    | false => rw [toggleLoop_cons_getFail w k acc rest hg]; exact ⟨rfl, rfl⟩
    | true =>
      cases hp : w.putOk k with
      | false => rw [toggleLoop_cons_putFail w k acc rest hg hp]; exact ⟨rfl, rfl⟩
      | true =>
        rw [toggleLoop_cons_ok w k acc rest hg hp]
        exact (ih (negOn k w) (some (!(w.state k).isOn)))

/-- The final world of a toggle pass starting from `negOn k w` is `negOn k`
of the final world of the pass starting from `w`: pushes of distinct
endpoints are independent and a double push of `k` cancels, and the
accumulator never influences the control flow. -/
lemma toggleLoop_negOn (rest : List KeylightConfig) :
    ∀ (w : World) (k : KeylightConfig) (a a' : Option Bool),
      (toggleLoop (negOn k w) a rest).1 = negOn k ((toggleLoop w a' rest).1) := by
  induction rest with
  | nil => intro w k a a'; rfl
  | cons k' rest' ih =>
    intro w k a a'
    cases hg : w.getOk k' with
    | false =>
      rw [toggleLoop_cons_getFail (negOn k w) k' a rest' hg,
          toggleLoop_cons_getFail w k' a' rest' hg]
    | true =>
      cases hp : w.putOk k' with
      | false =>
        rw [toggleLoop_cons_putFail (negOn k w) k' a rest' hg hp,
            toggleLoop_cons_putFail w k' a' rest' hg hp]
      | true =>
        rw [toggleLoop_cons_ok (negOn k w) k' a rest' hg hp,
            toggleLoop_cons_ok w k' a' rest' hg hp]
        show (toggleLoop (negOn k' (negOn k w)) _ rest').1 = _
        rw [negOn_comm k' k]
        exact ih (negOn k' w) k _ _

/-! ### Domain preservation of the brightness and temperature loops -/

/-- If every device starts in the brightness domain, `increaseBrightnessLoop`
keeps every device in the domain and only ever computes values in it. -/
lemma increaseBrightnessLoop_domain (registry : List KeylightConfig) :
    ∀ (w : World) (acc : Option ℚ), brightnessInDomain w →
      (∀ v, acc = some v → 0 ≤ v ∧ v ≤ 100) →
      brightnessInDomain (increaseBrightnessLoop w acc registry).1 ∧
      ∀ v, (increaseBrightnessLoop w acc registry).2.2 = .ok (some v) →
        0 ≤ v ∧ v ≤ 100 := by
  induction registry with
  | nil =>
    intro w acc hw hacc
    refine ⟨hw, fun v hv => ?_⟩
    simp only [increaseBrightnessLoop] at hv
    exact hacc v (by simpa using hv)
  | cons k rest ih =>
    intro w acc hw hacc
    cases hg : w.getOk k with
    | false =>
      have he : increaseBrightnessLoop w acc (k :: rest) =
          (w, [.fetch k], .error ("Failed increasing brightness for " ++ k.ip)) := by
        simp [increaseBrightnessLoop, getKeyLight_err hg]
      rw [he]
      refine ⟨hw, fun v hv => ?_⟩
      simp at hv
    | true =>
      cases hp : w.putOk k with
      | false =>
        have he : increaseBrightnessLoop w acc (k :: rest) =
            (w, [.fetch k, .push k],
             .error ("Failed increasing brightness for " ++ k.ip)) := by
          simp [increaseBrightnessLoop, getKeyLight_ok hg, updateKeyLight_err _ hp]
        rw [he]
        refine ⟨hw, fun v hv => ?_⟩
        simp at hv
      | true =>
        have he : increaseBrightnessLoop w acc (k :: rest) =
            ((increaseBrightnessLoop
                (pushWorld w k { brightness := some (min ((w.state k).brightness + 5) 100) })
                (some (min ((w.state k).brightness + 5) 100)) rest).1,
             .fetch k :: .push k ::
               (increaseBrightnessLoop
                 (pushWorld w k { brightness := some (min ((w.state k).brightness + 5) 100) })
                 (some (min ((w.state k).brightness + 5) 100)) rest).2.1,
             (increaseBrightnessLoop
               (pushWorld w k { brightness := some (min ((w.state k).brightness + 5) 100) })
               (some (min ((w.state k).brightness + 5) 100)) rest).2.2) := by
          simp [increaseBrightnessLoop, getKeyLight_ok hg, updateKeyLight_ok _ hp]
        rw [he]
        have hnb : 0 ≤ min ((w.state k).brightness + 5) 100 ∧
            min ((w.state k).brightness + 5) 100 ≤ 100 := by
          constructor
          · exact le_min (by linarith [(hw k).1]) (by norm_num)
          · exact min_le_right _ _
        have hw1 : brightnessInDomain
            (pushWorld w k { brightness := some (min ((w.state k).brightness + 5) 100) }) := by
          intro c
          by_cases hc : c = k
          · subst hc; rw [pushWorld_state_self]; simpa [applyOptions] using hnb
          · rw [pushWorld_state_other _ _ _ _ hc]; exact hw c
        have hacc1 : ∀ v,
            (some (min ((w.state k).brightness + 5) 100) : Option ℚ) = some v →
            0 ≤ v ∧ v ≤ 100 := by
          intro v hv
          obtain rfl : min ((w.state k).brightness + 5) 100 = v := by simpa using hv
          exact hnb
        exact ⟨(ih _ _ hw1 hacc1).1, (ih _ _ hw1 hacc1).2⟩

/-- If every device starts in the brightness domain, `decreaseBrightnessLoop`
keeps every device in the domain and only ever computes values in it. -/
lemma decreaseBrightnessLoop_domain (registry : List KeylightConfig) :
    ∀ (w : World) (acc : Option ℚ), brightnessInDomain w →
      (∀ v, acc = some v → 0 ≤ v ∧ v ≤ 100) →
      brightnessInDomain (decreaseBrightnessLoop w acc registry).1 ∧
      ∀ v, (decreaseBrightnessLoop w acc registry).2.2 = .ok (some v) →
        0 ≤ v ∧ v ≤ 100 := by
  induction registry with
  | nil =>
    intro w acc hw hacc
    refine ⟨hw, fun v hv => ?_⟩
    simp only [decreaseBrightnessLoop] at hv
    exact hacc v (by simpa using hv)
  | cons k rest ih =>
    intro w acc hw hacc
    cases hg : w.getOk k with
    | false =>
      have he : decreaseBrightnessLoop w acc (k :: rest) =
          (w, [.fetch k], .error ("Failed decreasing brightness for " ++ k.ip)) := by
        simp [decreaseBrightnessLoop, getKeyLight_err hg]
      rw [he]
      refine ⟨hw, fun v hv => ?_⟩
      simp at hv
    | true =>
      cases hp : w.putOk k with
      | false =>
        have he : decreaseBrightnessLoop w acc (k :: rest) =
            (w, [.fetch k, .push k],
             .error ("Failed decreasing brightness for " ++ k.ip)) := by
          simp [decreaseBrightnessLoop, getKeyLight_ok hg, updateKeyLight_err _ hp]
        rw [he]
        refine ⟨hw, fun v hv => ?_⟩
        simp at hv
      | true =>
        have he : decreaseBrightnessLoop w acc (k :: rest) =
            ((decreaseBrightnessLoop
                (pushWorld w k { brightness := some (max ((w.state k).brightness - 5) 0) })
                (some (max ((w.state k).brightness - 5) 0)) rest).1,
             .fetch k :: .push k ::
               (decreaseBrightnessLoop
                 (pushWorld w k { brightness := some (max ((w.state k).brightness - 5) 0) })
                 (some (max ((w.state k).brightness - 5) 0)) rest).2.1,
             (decreaseBrightnessLoop
               (pushWorld w k { brightness := some (max ((w.state k).brightness - 5) 0) })
               (some (max ((w.state k).brightness - 5) 0)) rest).2.2) := by
          simp [decreaseBrightnessLoop, getKeyLight_ok hg, updateKeyLight_ok _ hp]
        rw [he]
        have hnb : 0 ≤ max ((w.state k).brightness - 5) 0 ∧
            max ((w.state k).brightness - 5) 0 ≤ 100 := by
          constructor
          · exact le_max_right _ _
          · exact max_le (by linarith [(hw k).2]) (by norm_num)
        have hw1 : brightnessInDomain
            (pushWorld w k { brightness := some (max ((w.state k).brightness - 5) 0) }) := by
          intro c
          by_cases hc : c = k
          · subst hc; rw [pushWorld_state_self]; simpa [applyOptions] using hnb
          · rw [pushWorld_state_other _ _ _ _ hc]; exact hw c
        have hacc1 : ∀ v,
            (some (max ((w.state k).brightness - 5) 0) : Option ℚ) = some v →
            0 ≤ v ∧ v ≤ 100 := by
          intro v hv
          obtain rfl : max ((w.state k).brightness - 5) 0 = v := by simpa using hv
          exact hnb
        exact ⟨(ih _ _ hw1 hacc1).1, (ih _ _ hw1 hacc1).2⟩

/-- If every device starts in the temperature domain,
`increaseTemperatureLoop` keeps every device in the domain and only ever
computes values in it. -/
lemma increaseTemperatureLoop_domain (registry : List KeylightConfig) :
    ∀ (w : World) (acc : Option ℚ), temperatureInDomain w →
      (∀ v, acc = some v → COLD_TEMPERATURE ≤ v ∧ v ≤ WARM_TEMPERATURE) →
      temperatureInDomain (increaseTemperatureLoop w acc registry).1 ∧
      ∀ v, (increaseTemperatureLoop w acc registry).2.2 = .ok (some v) →
        COLD_TEMPERATURE ≤ v ∧ v ≤ WARM_TEMPERATURE := by
  induction registry with
  | nil =>
    intro w acc hw hacc
    refine ⟨hw, fun v hv => ?_⟩
    simp only [increaseTemperatureLoop] at hv
    exact hacc v (by simpa using hv)
  | cons k rest ih =>
    intro w acc hw hacc
    cases hg : w.getOk k with
    | false =>
      have he : increaseTemperatureLoop w acc (k :: rest) =
          (w, [.fetch k], .error ("Failed increasing temperature for " ++ k.ip)) := by
        simp [increaseTemperatureLoop, getKeyLight_err hg]
      rw [he]
      refine ⟨hw, fun v hv => ?_⟩
      simp at hv
    | true =>
      cases hp : w.putOk k with
      | false =>
        have he : increaseTemperatureLoop w acc (k :: rest) =
            (w, [.fetch k, .push k],
             .error ("Failed increasing temperature for " ++ k.ip)) := by
          simp [increaseTemperatureLoop, getKeyLight_ok hg, updateKeyLight_err _ hp]
        rw [he]
        refine ⟨hw, fun v hv => ?_⟩
        simp at hv
      | true =>
        have he : increaseTemperatureLoop w acc (k :: rest) =
            ((increaseTemperatureLoop
                (pushWorld w k { temperature := some (min ((w.state k).temperature + TEMPERATURE_STEP) WARM_TEMPERATURE) })
                (some (min ((w.state k).temperature + TEMPERATURE_STEP) WARM_TEMPERATURE))
                rest).1,
             .fetch k :: .push k ::
               (increaseTemperatureLoop
                 (pushWorld w k { temperature := some (min ((w.state k).temperature + TEMPERATURE_STEP) WARM_TEMPERATURE) })
                 (some (min ((w.state k).temperature + TEMPERATURE_STEP) WARM_TEMPERATURE))
                 rest).2.1,
             (increaseTemperatureLoop
               (pushWorld w k { temperature := some (min ((w.state k).temperature + TEMPERATURE_STEP) WARM_TEMPERATURE) })
               (some (min ((w.state k).temperature + TEMPERATURE_STEP) WARM_TEMPERATURE))
               rest).2.2) := by
          simp [increaseTemperatureLoop, getKeyLight_ok hg, updateKeyLight_ok _ hp]
        rw [he]
        have hnb : COLD_TEMPERATURE ≤
            min ((w.state k).temperature + TEMPERATURE_STEP) WARM_TEMPERATURE ∧
            min ((w.state k).temperature + TEMPERATURE_STEP) WARM_TEMPERATURE ≤
              WARM_TEMPERATURE := by
          constructor
          · refine le_min ?_ ?_
            · have h1 := (hw k).1
              simp only [TEMPERATURE_STEP, WARM_TEMPERATURE, COLD_TEMPERATURE] at h1 ⊢
              linarith
            · simp only [WARM_TEMPERATURE, COLD_TEMPERATURE]; norm_num
          · exact min_le_right _ _
        have hw1 : temperatureInDomain
            (pushWorld w k { temperature := some (min ((w.state k).temperature + TEMPERATURE_STEP) WARM_TEMPERATURE) }) := by
          intro c
          by_cases hc : c = k
          · subst hc; rw [pushWorld_state_self]; simpa [applyOptions] using hnb
          · rw [pushWorld_state_other _ _ _ _ hc]; exact hw c
        have hacc1 : ∀ v,
            (some (min ((w.state k).temperature + TEMPERATURE_STEP) WARM_TEMPERATURE) :
              Option ℚ) = some v →
            COLD_TEMPERATURE ≤ v ∧ v ≤ WARM_TEMPERATURE := by
          intro v hv
          obtain rfl :
              min ((w.state k).temperature + TEMPERATURE_STEP) WARM_TEMPERATURE = v := by
            simpa using hv
          exact hnb
        exact ⟨(ih _ _ hw1 hacc1).1, (ih _ _ hw1 hacc1).2⟩

/-- If every device starts in the temperature domain,
`decreaseTemperatureLoop` keeps every device in the domain and only ever
computes values in it. -/
lemma decreaseTemperatureLoop_domain (registry : List KeylightConfig) :
    ∀ (w : World) (acc : Option ℚ), temperatureInDomain w →
      (∀ v, acc = some v → COLD_TEMPERATURE ≤ v ∧ v ≤ WARM_TEMPERATURE) →
      temperatureInDomain (decreaseTemperatureLoop w acc registry).1 ∧
      ∀ v, (decreaseTemperatureLoop w acc registry).2.2 = .ok (some v) →
        COLD_TEMPERATURE ≤ v ∧ v ≤ WARM_TEMPERATURE := by
  induction registry with
  | nil =>
    intro w acc hw hacc
    refine ⟨hw, fun v hv => ?_⟩
    simp only [decreaseTemperatureLoop] at hv
    exact hacc v (by simpa using hv)
  | cons k rest ih =>
    intro w acc hw hacc
    cases hg : w.getOk k with
    | false =>
      have he : decreaseTemperatureLoop w acc (k :: rest) =
          (w, [.fetch k], .error ("Failed decreasing temperature for " ++ k.ip)) := by
        simp [decreaseTemperatureLoop, getKeyLight_err hg]
      rw [he]
      refine ⟨hw, fun v hv => ?_⟩
      simp at hv
    | true =>
      cases hp : w.putOk k with
      | false =>
        have he : decreaseTemperatureLoop w acc (k :: rest) =
            (w, [.fetch k, .push k],
             .error ("Failed decreasing temperature for " ++ k.ip)) := by
          simp [decreaseTemperatureLoop, getKeyLight_ok hg, updateKeyLight_err _ hp]
        rw [he]
        refine ⟨hw, fun v hv => ?_⟩
        simp at hv
      | true =>
        have he : decreaseTemperatureLoop w acc (k :: rest) =
            ((decreaseTemperatureLoop
                (pushWorld w k { temperature := some (max ((w.state k).temperature - TEMPERATURE_STEP) COLD_TEMPERATURE) })
                (some (max ((w.state k).temperature - TEMPERATURE_STEP) COLD_TEMPERATURE))
                rest).1,
             .fetch k :: .push k ::
               (decreaseTemperatureLoop
                 (pushWorld w k { temperature := some (max ((w.state k).temperature - TEMPERATURE_STEP) COLD_TEMPERATURE) })
                 (some (max ((w.state k).temperature - TEMPERATURE_STEP) COLD_TEMPERATURE))
                 rest).2.1,
             (decreaseTemperatureLoop
               (pushWorld w k { temperature := some (max ((w.state k).temperature - TEMPERATURE_STEP) COLD_TEMPERATURE) })
               (some (max ((w.state k).temperature - TEMPERATURE_STEP) COLD_TEMPERATURE))
               rest).2.2) := by
          simp [decreaseTemperatureLoop, getKeyLight_ok hg, updateKeyLight_ok _ hp]
        rw [he]
        have hnb : COLD_TEMPERATURE ≤
            max ((w.state k).temperature - TEMPERATURE_STEP) COLD_TEMPERATURE ∧
            max ((w.state k).temperature - TEMPERATURE_STEP) COLD_TEMPERATURE ≤
              WARM_TEMPERATURE := by
          constructor
          · exact le_max_right _ _
          · refine max_le ?_ ?_
            · have h2 := (hw k).2
              simp only [TEMPERATURE_STEP, WARM_TEMPERATURE, COLD_TEMPERATURE] at h2 ⊢
              linarith
            · simp only [WARM_TEMPERATURE, COLD_TEMPERATURE]; norm_num
        have hw1 : temperatureInDomain
            (pushWorld w k { temperature := some (max ((w.state k).temperature - TEMPERATURE_STEP) COLD_TEMPERATURE) }) := by
          intro c
          by_cases hc : c = k
          · subst hc; rw [pushWorld_state_self]; simpa [applyOptions] using hnb
          · rw [pushWorld_state_other _ _ _ _ hc]; exact hw c
        have hacc1 : ∀ v,
            (some (max ((w.state k).temperature - TEMPERATURE_STEP) COLD_TEMPERATURE) :
              Option ℚ) = some v →
            COLD_TEMPERATURE ≤ v ∧ v ≤ WARM_TEMPERATURE := by
          intro v hv
          obtain rfl :
              max ((w.state k).temperature - TEMPERATURE_STEP) COLD_TEMPERATURE = v := by
            simpa using hv
          exact hnb
        exact ⟨(ih _ _ hw1 hacc1).1, (ih _ _ hw1 hacc1).2⟩

/-- Two passes of `toggleLoop` restore the world exactly: each pass performs
the same sequence of power negations (reachability is state-independent),
and each negation is an involution. -/
lemma toggleLoop_involutive (registry : List KeylightConfig) :
    ∀ (w : World) (a b : Option Bool),
      (toggleLoop (toggleLoop w a registry).1 b registry).1 = w := by
  induction registry with
  | nil => intro w a b; rfl
  | cons k rest ih =>
    intro w a b
    cases hg : w.getOk k with
    | false =>
      rw [toggleLoop_cons_getFail w k a rest hg]
      simp only
      rw [toggleLoop_cons_getFail w k b rest hg]
    | true =>
      cases hp : w.putOk k with
      | false =>
        rw [toggleLoop_cons_putFail w k a rest hg hp]
        simp only
        rw [toggleLoop_cons_putFail w k b rest hg hp]
      | true =>
        rw [toggleLoop_cons_ok w k a rest hg hp]
        simp only
        rw [toggleLoop_negOn rest w k _ none]
        have hreach := toggleLoop_reach rest w none
        have hg2 : (negOn k ((toggleLoop w none rest).1)).getOk k = true := by
          rw [negOn_getOk, hreach.1]; exact hg
        have hp2 : (negOn k ((toggleLoop w none rest).1)).putOk k = true := by
          rw [negOn_putOk, hreach.2]; exact hp
        rw [toggleLoop_cons_ok _ k b rest hg2 hp2]
        simp only
        rw [negOn_negOn]
        exact ih w none _

/-! ### Discovery run lemmas -/

lemma settle_registry (s : DiscoveryState) (r : Except String (List KeylightConfig)) :
    (settle s r).registry = s.registry := by
  cases hs : s.settled <;> simp [settle, hs]

lemma settle_pending (s : DiscoveryState) (r : Except String (List KeylightConfig))
    (h : s.settled = none) : settle s r = { s with settled := some r } := by
  simp [settle, h]

/-- A non-timer step never settles the promise while the registry is empty:
announcements settle only after appending to the registry. -/
lemma discoveryStep_settled_nonempty (count : Nat) (s : DiscoveryState)
    (e : DiscoveryEvent) (he : e ≠ DiscoveryEvent.timerFire)
    (hinv : s.settled.isSome = true → s.registry ≠ []) :
    (discoveryStep count s e).settled.isSome = true →
      (discoveryStep count s e).registry ≠ [] := by
  cases e with
  | timerFire => exact absurd rfl he
  | announce addr port =>
    cases addr with
    | none =>
      simp only [discoveryStep]
      split <;> exact hinv
    | some a =>
      cases port with
      | none =>
        simp only [discoveryStep]
        split <;> exact hinv
      | some p =>
        simp only [discoveryStep]
        split
        · exact hinv
        · split
          · intro _
            rw [settle_registry]
            simp
          · intro _
            simp

/-- Over a run without a timer event, a settled promise implies a nonempty
registry. -/
lemma foldl_discovery_settled_nonempty (count : Nat) :
    ∀ (evs : List DiscoveryEvent) (s : DiscoveryState),
      (s.settled.isSome = true → s.registry ≠ []) →
      (∀ e ∈ evs, e ≠ DiscoveryEvent.timerFire) →
      ((evs.foldl (discoveryStep count) s).settled.isSome = true →
        (evs.foldl (discoveryStep count) s).registry ≠ []) := by
  intro evs
  induction evs with
  | nil => intro s hs _; exact hs
  | cons e evs ih =>
    intro s hs he
    simp only [List.foldl_cons]
    refine ih _ ?_ ?_
    · exact discoveryStep_settled_nonempty count s e (he e (by simp)) hs
    · intro e' h'; exact he e' (by simp [h'])

/-- In a run whose events carry no timer, an empty registry means the
promise is still pending. -/
lemma runDiscovery_empty_pending (count : Nat) (evs : List DiscoveryEvent)
    (h : DiscoveryEvent.timerFire ∉ evs)
    (hemp : (runDiscovery count evs).registry = []) :
    (runDiscovery count evs).settled = none := by
  cases hs : (runDiscovery count evs).settled with
  | none => rfl
  | some r =>
    exfalso
    refine foldl_discovery_settled_nonempty count evs discoveryInit ?_ ?_ ?_ hemp
    · intro h'; simp [discoveryInit] at h'
    · intro e he
      rintro rfl
      exact h he
    · simp [runDiscovery] at hs ⊢
      simp [hs]

/-! ### Claim theorems -/

/-- C3: if, over a registry with at least two endpoints, the first
endpoint's fetch fails (or its push fails), `toggle` fails immediately with
an error naming that endpoint, and every network call attempted was
addressed to the first endpoint: no fetch or push is ever attempted against
any later endpoint. -/
theorem first_endpoint_failure_aborts (w : World) (k1 k2 : KeylightConfig)
    (rest : List KeylightConfig) :
    (w.getOk k1 = false →
      toggle w (k1 :: k2 :: rest) =
        (w, [.fetch k1], .error ("Failed toggling Key Light at " ++ k1.ip))) ∧
    (w.getOk k1 = true → w.putOk k1 = false →
      toggle w (k1 :: k2 :: rest) =
        (w, [.fetch k1, .push k1], .error ("Failed toggling Key Light at " ++ k1.ip))) ∧
    ((w.getOk k1 = false ∨ w.putOk k1 = false) →
      ∀ e ∈ (toggle w (k1 :: k2 :: rest)).2.1, e.config = k1) := by
  refine ⟨?_, ?_, ?_⟩
  · intro hg
    exact toggleLoop_cons_getFail w k1 none (k2 :: rest) hg
  · intro hg hp
    exact toggleLoop_cons_putFail w k1 none (k2 :: rest) hg hp
  · intro h e he
    simp only [toggle] at he
    cases hg : w.getOk k1 with
    | false =>
      rw [toggleLoop_cons_getFail w k1 none (k2 :: rest) hg] at he
      simp at he
      simp [he, NetEvent.config]
    | true =>
      cases hp : w.putOk k1 with
      | false =>
        rw [toggleLoop_cons_putFail w k1 none (k2 :: rest) hg hp] at he
        simp at he
        rcases he with rfl | rfl <;> simp [NetEvent.config]
      | true =>
        rcases h with h | h
        · rw [hg] at h; cases h
        · rw [hp] at h; cases h

/-- C3 witness: with both endpoints present but the first unreachable for
GET, the operation aborts after the single fetch attempt. -/
theorem first_endpoint_failure_aborts_witness :
    toggle (fetchFailWorld false 50 200) (ep1 :: ep2 :: []) =
      (fetchFailWorld false 50 200, [.fetch ep1],
       .error ("Failed toggling Key Light at " ++ ep1.ip)) :=
  (first_endpoint_failure_aborts (fetchFailWorld false 50 200) ep1 ep2 []).1 rfl

/-- C4: if the 5-second timer fires at a point where no timer has fired
before, it rejects discovery with the no-devices error exactly when the
registry is still empty; when at least one endpoint has been found, the
timer event leaves the discovery state untouched (it neither resolves nor
rejects). -/
theorem timer_rejects_iff_registry_empty (count : Nat)
    (evs : List DiscoveryEvent) (h : DiscoveryEvent.timerFire ∉ evs) :
    ((runDiscovery count evs).registry = [] →
      runDiscovery count (evs ++ [DiscoveryEvent.timerFire]) =
        { runDiscovery count evs with settled := some (.error noDevicesMsg) }) ∧
    ((runDiscovery count evs).registry ≠ [] →
      runDiscovery count (evs ++ [DiscoveryEvent.timerFire]) =
        runDiscovery count evs) := by
  have hrun : runDiscovery count (evs ++ [DiscoveryEvent.timerFire]) =
      discoveryStep count (runDiscovery count evs) DiscoveryEvent.timerFire := by
    simp [runDiscovery, List.foldl_append]
  constructor
  · intro hemp
    have hset := runDiscovery_empty_pending count evs h hemp
    rw [hrun]
    simp only [discoveryStep]
    rw [if_pos (by simp [hemp])]
    exact settle_pending _ _ hset
  · intro hne
    rw [hrun]
    simp only [discoveryStep]
    rw [if_neg (by simpa [List.length_eq_zero] using hne)]

/-- C4 witness: after one successful announcement the timer changes
nothing; on the empty run the timer rejects. -/
theorem timer_rejects_iff_registry_empty_witness :
    runDiscovery 2
        ([DiscoveryEvent.announce (some "1.2.3.4") (some 9123)] ++
          [DiscoveryEvent.timerFire]) =
      runDiscovery 2 [DiscoveryEvent.announce (some "1.2.3.4") (some 9123)] ∧
    runDiscovery 2 ([] ++ [DiscoveryEvent.timerFire]) =
      { runDiscovery 2 [] with settled := some (.error noDevicesMsg) } :=
  ⟨(timer_rejects_iff_registry_empty 2
      [DiscoveryEvent.announce (some "1.2.3.4") (some 9123)] (by decide)).2 (by decide),
   (timer_rejects_iff_registry_empty 2 [] (by decide)).1 (by decide)⟩

/-- C5 counterexample: with target count 1, if the 5-second timer fires
while the registry is empty and an announcement then brings the registry to
the target count, the browser is torn down but discovery does not resolve
(the promise was already rejected), refuting the claim that reaching the
target count always resolves discovery with the registry. -/
theorem count_reached_after_reject_does_not_resolve :
    (runDiscovery 1 [DiscoveryEvent.timerFire,
        DiscoveryEvent.announce (some "1.2.3.4") (some 9123)]).registry.length = 1 ∧
    (runDiscovery 1 [DiscoveryEvent.timerFire,
        DiscoveryEvent.announce (some "1.2.3.4") (some 9123)]).browserDestroyed = true ∧
    (runDiscovery 1 [DiscoveryEvent.timerFire,
        DiscoveryEvent.announce (some "1.2.3.4") (some 9123)]).resolved = false ∧
    (runDiscovery 1 [DiscoveryEvent.timerFire,
        DiscoveryEvent.announce (some "1.2.3.4") (some 9123)]).rejected = true :=
  ⟨rfl, rfl, rfl, rfl⟩

/-- C5 (amended): when an announcement brings the registry length to the
target count, the browser is torn down, and discovery resolves with the
full registry provided the promise is still pending; once the browser is
destroyed, no announcement mutates the discovery state, so the registry
never changes again. -/
theorem count_reached_teardown_and_resolve (count : Nat) (s : DiscoveryState)
    (a : String) (p : Nat) (hd : s.browserDestroyed = false)
    (hlen : (s.registry ++ [(⟨a, p⟩ : KeylightConfig)]).length = count) :
    ((discoveryStep count s (.announce (some a) (some p))).browserDestroyed = true ∧
     (discoveryStep count s (.announce (some a) (some p))).registry =
       s.registry ++ [(⟨a, p⟩ : KeylightConfig)] ∧
     (s.settled = none →
       (discoveryStep count s (.announce (some a) (some p))).settled =
         some (.ok (s.registry ++ [(⟨a, p⟩ : KeylightConfig)])))) ∧
    ∀ (s2 : DiscoveryState) (a2 : Option String) (p2 : Option Nat),
      s2.browserDestroyed = true →
      discoveryStep count s2 (.announce a2 p2) = s2 := by
  constructor
  · simp only [discoveryStep, hd, Bool.false_eq_true, if_false]
    rw [if_pos hlen]
    refine ⟨rfl, settle_registry _ _, ?_⟩
    intro hs
    simp [settle, hs]
  · intro s2 a2 p2 hd2
    cases a2 <;> cases p2 <;> simp [discoveryStep, hd2]

/-- C5 witness: a single announcement reaching count 1 from the initial
state tears the browser down and resolves with the one-element registry. -/
theorem count_reached_teardown_and_resolve_witness :
    (discoveryStep 1 discoveryInit (.announce (some "1.2.3.4") (some 9123))).browserDestroyed
        = true ∧
    (discoveryStep 1 discoveryInit (.announce (some "1.2.3.4") (some 9123))).settled =
      some (.ok (([] : List KeylightConfig) ++ [(⟨"1.2.3.4", 9123⟩ : KeylightConfig)])) :=
  ⟨((count_reached_teardown_and_resolve 1 discoveryInit "1.2.3.4" 9123 rfl
      (by decide)).1).1,
   ((count_reached_teardown_and_resolve 1 discoveryInit "1.2.3.4" 9123 rfl
      (by decide)).1).2.2 rfl⟩

/-- C6: static discovery over a comma-separated list yields one endpoint
per entry (same count, in order), each with the whitespace-trimmed entry as
host and the fixed well-known port 9123, and performs no network calls. -/
theorem static_discovery_exact (s : String) :
    (discoverStatic s).2 = [] ∧
    (discoverStatic s).1.length = (s.splitOn ",").length ∧
    (discoverStatic s).1.map KeylightConfig.port =
      List.replicate (s.splitOn ",").length 9123 ∧
    ∀ i : Nat, (discoverStatic s).1[i]? =
      ((s.splitOn ",")[i]?).map
        (fun e => ({ ip := e.trim, port := 9123 } : KeylightConfig)) := by
  refine ⟨rfl, by simp [discoverStatic], ?_, ?_⟩
  · refine List.eq_replicate_iff.mpr ⟨by simp [discoverStatic], ?_⟩
    intro b hb
    simp only [discoverStatic, List.map_map, List.mem_map] at hb
    obtain ⟨e, _, rfl⟩ := hb
    rfl
  · intro i
    simp only [discoverStatic, List.map_map, List.getElem?_map]
    rfl

/-- C10: on an empty registry every one of the five control operations
returns successfully with the absent value (`undefined`), leaves the world
untouched, and attempts no fetch or push. -/
theorem empty_registry_noop (w : World) :
    toggle w [] = (w, [], .ok none) ∧
    increaseBrightness w [] = (w, [], .ok none) ∧
    decreaseBrightness w [] = (w, [], .ok none) ∧
    increaseTemperature w [] = (w, [], .ok none) ∧
    decreaseTemperature w [] = (w, [], .ok none) :=
  ⟨rfl, rfl, rfl, rfl, rfl⟩

/-! ### Single-endpoint success runs -/

lemma increaseBrightness_single (w : World) (k : KeylightConfig)
    (hg : w.getOk k = true) (hp : w.putOk k = true) :
    increaseBrightness w [k] =
      (pushWorld w k { brightness := some (min ((w.state k).brightness + 5) 100) },
       [.fetch k, .push k],
       .ok (some (min ((w.state k).brightness + 5) 100))) := by
  simp [increaseBrightness, increaseBrightnessLoop, getKeyLight_ok hg,
    updateKeyLight_ok _ hp]

lemma decreaseBrightness_single (w : World) (k : KeylightConfig)
    (hg : w.getOk k = true) (hp : w.putOk k = true) :
    decreaseBrightness w [k] =
      (pushWorld w k { brightness := some (max ((w.state k).brightness - 5) 0) },
       [.fetch k, .push k],
       .ok (some (max ((w.state k).brightness - 5) 0))) := by
  simp [decreaseBrightness, decreaseBrightnessLoop, getKeyLight_ok hg,
    updateKeyLight_ok _ hp]

lemma increaseTemperature_single (w : World) (k : KeylightConfig)
    (hg : w.getOk k = true) (hp : w.putOk k = true) :
    increaseTemperature w [k] =
      (pushWorld w k { temperature := some (min ((w.state k).temperature + TEMPERATURE_STEP) WARM_TEMPERATURE) },
       [.fetch k, .push k],
       .ok (some (min ((w.state k).temperature + TEMPERATURE_STEP) WARM_TEMPERATURE))) := by
  simp [increaseTemperature, increaseTemperatureLoop, getKeyLight_ok hg,
    updateKeyLight_ok _ hp]

lemma decreaseTemperature_single (w : World) (k : KeylightConfig)
    (hg : w.getOk k = true) (hp : w.putOk k = true) :
    decreaseTemperature w [k] =
      (pushWorld w k { temperature := some (max ((w.state k).temperature - TEMPERATURE_STEP) COLD_TEMPERATURE) },
       [.fetch k, .push k],
       .ok (some (max ((w.state k).temperature - TEMPERATURE_STEP) COLD_TEMPERATURE))) := by
  simp [decreaseTemperature, decreaseTemperatureLoop, getKeyLight_ok hg,
    updateKeyLight_ok _ hp]

/-- C1 counterexample: starting from a brightness outside `[0, 100]` (here
−10), `increaseBrightness` computes and pushes −5, which is not in
`[0, 100]`: the increase path clamps only at the top, so the claim's
"regardless of starting value" fails. -/
theorem brightness_claim_fails_outside_domain :
    (increaseBrightness (constWorld false (-10) 200) [ep1]).2.2 =
      .ok (some (-5 : ℚ)) ∧
    ((increaseBrightness (constWorld false (-10) 200) [ep1]).1.state ep1).brightness =
      (-5 : ℚ) ∧
    ¬ (0 ≤ (-5 : ℚ)) := by
  refine ⟨?_, ?_, by norm_num⟩
  · rw [increaseBrightness_single _ ep1 rfl rfl]
    norm_num [constWorld, min_def]
  · rw [increaseBrightness_single _ ep1 rfl rfl]
    simp only [pushWorld_state_self]
    norm_num [applyOptions, constWorld, min_def]

/-- C1 (amended): for starting values inside the declared domain `[0, 100]`
each brightness adjustment stays in the domain, for every device state
pushed and for the returned value; starting at 98 and increasing yields
100 and starting at 3 and decreasing yields 0.  (Outside the domain only
one end is clamped per direction: increase clamps above, decrease clamps
below.) -/
theorem brightness_adjustments_clamped (w : World) (registry : List KeylightConfig)
    (hw : brightnessInDomain w) :
    (brightnessInDomain (increaseBrightness w registry).1 ∧
     ∀ v, (increaseBrightness w registry).2.2 = .ok (some v) → 0 ≤ v ∧ v ≤ 100) ∧
    (brightnessInDomain (decreaseBrightness w registry).1 ∧
     ∀ v, (decreaseBrightness w registry).2.2 = .ok (some v) → 0 ≤ v ∧ v ≤ 100) ∧
    (increaseBrightness (constWorld false 98 200) [ep1]).2.2 = .ok (some 100) ∧
    (decreaseBrightness (constWorld false 3 200) [ep1]).2.2 = .ok (some 0) := by
  refine ⟨?_, ?_, ?_, ?_⟩
  · exact increaseBrightnessLoop_domain registry w none hw (fun v hv => by cases hv)
  · exact decreaseBrightnessLoop_domain registry w none hw (fun v hv => by cases hv)
  · rw [increaseBrightness_single _ ep1 rfl rfl]
    norm_num [constWorld, min_def]
  · rw [decreaseBrightness_single _ ep1 rfl rfl]
    norm_num [constWorld, max_def]

/-- C1 witness: a fully reachable in-domain world keeps its devices in
`[0, 100]` after an increase. -/
theorem brightness_adjustments_clamped_witness :
    0 ≤ ((increaseBrightness (constWorld false 50 200) [ep1]).1.state ep1).brightness ∧
    ((increaseBrightness (constWorld false 50 200) [ep1]).1.state ep1).brightness ≤ 100 :=
  ((brightness_adjustments_clamped (constWorld false 50 200) [ep1]
      (by intro c; constructor <;> norm_num [constWorld])).1).1 ep1

/-- C2 counterexample: starting from a temperature outside `[143, 344]`
(here 100), `increaseTemperature` computes and pushes `2201 / 20 = 110.05`,
which is below 143: the increase path clamps only at the warm end, so the
claim's "regardless of whether it lies in [143, 344]" fails. -/
theorem temperature_claim_fails_outside_domain :
    (increaseTemperature (constWorld false 50 100) [ep1]).2.2 =
      .ok (some (2201 / 20 : ℚ)) ∧
    ¬ (COLD_TEMPERATURE ≤ (2201 / 20 : ℚ)) := by
  constructor
  · rw [increaseTemperature_single _ ep1 rfl rfl]
    norm_num [constWorld, TEMPERATURE_STEP, WARM_TEMPERATURE, COLD_TEMPERATURE, min_def]
  · norm_num [COLD_TEMPERATURE]

/-- C2 (amended): for starting values inside `[143, 344]` each temperature
adjustment stays in `[143, 344]`, for every device state pushed and for the
returned value; increasing from 340 by the step `201 / 20 = 10.05` yields
344, not `350.05`. -/
theorem temperature_adjustments_clamped (w : World) (registry : List KeylightConfig)
    (hw : temperatureInDomain w) :
    (temperatureInDomain (increaseTemperature w registry).1 ∧
     ∀ v, (increaseTemperature w registry).2.2 = .ok (some v) →
       COLD_TEMPERATURE ≤ v ∧ v ≤ WARM_TEMPERATURE) ∧
    (temperatureInDomain (decreaseTemperature w registry).1 ∧
     ∀ v, (decreaseTemperature w registry).2.2 = .ok (some v) →
       COLD_TEMPERATURE ≤ v ∧ v ≤ WARM_TEMPERATURE) ∧
    (increaseTemperature (constWorld false 50 340) [ep1]).2.2 = .ok (some 344) := by
  refine ⟨?_, ?_, ?_⟩
  · exact increaseTemperatureLoop_domain registry w none hw (fun v hv => by cases hv)
  · exact decreaseTemperatureLoop_domain registry w none hw (fun v hv => by cases hv)
  · rw [increaseTemperature_single _ ep1 rfl rfl]
    norm_num [constWorld, TEMPERATURE_STEP, WARM_TEMPERATURE, COLD_TEMPERATURE, min_def]

/-- C2 witness: a fully reachable in-domain world keeps its devices in
`[143, 344]` after an increase. -/
theorem temperature_adjustments_clamped_witness :
    COLD_TEMPERATURE ≤
      ((increaseTemperature (constWorld false 50 200) [ep1]).1.state ep1).temperature ∧
    ((increaseTemperature (constWorld false 50 200) [ep1]).1.state ep1).temperature ≤
      WARM_TEMPERATURE :=
  ((temperature_adjustments_clamped (constWorld false 50 200) [ep1]
      (by intro c
          constructor <;>
            norm_num [constWorld, COLD_TEMPERATURE, WARM_TEMPERATURE])).1).1 ep1

/-- C7: toggling twice restores the world exactly, in particular every
device's power returns to its original state.  Each pass fetches a device's
power and pushes its negation, so a pass acts as a fixed sequence of power
negations; the second pass repeats the same sequence (reachability does not
depend on device state) and negation is an involution.  This holds for
every world, even when some endpoint fails: both passes then abort at the
same endpoint having negated the same prefix twice. -/
theorem toggle_involutive (w : World) (registry : List KeylightConfig) :
    (toggle (toggle w registry).1 registry).1 = w :=
  toggleLoop_involutive registry w none none

/-- C8 counterexample: a fetch failure and a push failure at the same
endpoint surface the identical error to the caller — the operation's catch
block replaces the phase-specific inner messages with one generic message —
so the surfaced error cannot carry which phase failed.  (The traces show
the two runs really failed in different phases.) -/
theorem toggle_error_identical_across_phases :
    (toggle (fetchFailWorld false 50 200) [ep1]).2.2 =
      (toggle (pushFailWorld false 50 200) [ep1]).2.2 ∧
    (toggle (fetchFailWorld false 50 200) [ep1]).2.1 = [.fetch ep1] ∧
    (toggle (pushFailWorld false 50 200) [ep1]).2.1 = [.fetch ep1, .push ep1] ∧
    (toggle (fetchFailWorld false 50 200) [ep1]).2.2 =
      .error ("Failed toggling Key Light at " ++ ep1.ip) :=
  ⟨rfl, rfl, rfl, rfl⟩

/-- C8 (amended): when a control operation aborts because an endpoint's
fetch or push failed, the error surfaced to the caller names the failing
endpoint (its ip) but not the failing phase: whichever of fetch or push
failed, `toggle` throws the same `Failed toggling Key Light at <ip>`. -/
theorem toggle_error_names_endpoint_only (w : World) (k : KeylightConfig)
    (rest : List KeylightConfig) (h : w.getOk k = false ∨ w.putOk k = false) :
    (toggle w (k :: rest)).2.2 =
      .error ("Failed toggling Key Light at " ++ k.ip) := by
  cases hg : w.getOk k with
  | false => rw [toggle, toggleLoop_cons_getFail w k none rest hg]
  | true =>
    rcases h with h | h
    · rw [hg] at h; cases h
    · rw [toggle, toggleLoop_cons_putFail w k none rest hg h]

/-- C8 witness: a push failure surfaces the endpoint-naming message. -/
theorem toggle_error_names_endpoint_only_witness :
    (toggle (pushFailWorld false 50 200) (ep1 :: [])).2.2 =
      .error ("Failed toggling Key Light at " ++ ep1.ip) :=
  toggle_error_names_endpoint_only (pushFailWorld false 50 200) ep1 [] (Or.inr rfl)

/-- C9 counterexample: the step is `201 / 20 = 10.05`, not an integer, and
increasing the temperature from the integer 200 computes and pushes
`4201 / 20 = 210.05`, which is not an integer. -/
theorem temperature_step_pushes_non_integer :
    TEMPERATURE_STEP = 201 / 20 ∧
    (increaseTemperature (constWorld false 50 200) [ep1]).2.2 =
      .ok (some (4201 / 20 : ℚ)) ∧
    ¬ ∃ n : ℤ, (4201 / 20 : ℚ) = (n : ℚ) := by
  refine ⟨by norm_num [TEMPERATURE_STEP, WARM_TEMPERATURE, COLD_TEMPERATURE], ?_, ?_⟩
  · rw [increaseTemperature_single _ ep1 rfl rfl]
    norm_num [constWorld, TEMPERATURE_STEP, WARM_TEMPERATURE, COLD_TEMPERATURE, min_def]
  · rintro ⟨n, hn⟩
    have h20 : (4201 : ℚ) = 20 * n := by
      field_simp at hn
      linarith
    have hz : (4201 : ℤ) = 20 * n := by exact_mod_cast h20
    omega

/-- C9 (amended): a temperature adjustment starting from an integer in
`[143, 344]` computes an integer iff the result was clamped at the bound
(344 for increase, 143 for decrease); an unclamped result offsets the
integer by ±`201 / 20` and is never an integer. -/
theorem temperature_integer_iff_clamped (w : World) (k : KeylightConfig) (t : ℤ)
    (ht : (w.state k).temperature = (t : ℚ)) (h1 : (143 : ℤ) ≤ t) (h2 : t ≤ 344)
    (hg : w.getOk k = true) (hp : w.putOk k = true) :
    ((increaseTemperature w [k]).2.2 =
       .ok (some (min ((t : ℚ) + TEMPERATURE_STEP) WARM_TEMPERATURE)) ∧
     ((∃ n : ℤ, min ((t : ℚ) + TEMPERATURE_STEP) WARM_TEMPERATURE = (n : ℚ)) ↔
       min ((t : ℚ) + TEMPERATURE_STEP) WARM_TEMPERATURE = WARM_TEMPERATURE)) ∧
    ((decreaseTemperature w [k]).2.2 =
       .ok (some (max ((t : ℚ) - TEMPERATURE_STEP) COLD_TEMPERATURE)) ∧
     ((∃ n : ℤ, max ((t : ℚ) - TEMPERATURE_STEP) COLD_TEMPERATURE = (n : ℚ)) ↔
       max ((t : ℚ) - TEMPERATURE_STEP) COLD_TEMPERATURE = COLD_TEMPERATURE)) := by
  refine ⟨⟨?_, ?_⟩, ?_, ?_⟩
  · rw [increaseTemperature_single w k hg hp, ht]
  · constructor
    · rintro ⟨n, hn⟩
      rcases le_total ((t : ℚ) + TEMPERATURE_STEP) WARM_TEMPERATURE with hle | hge
      · exfalso
        rw [min_eq_left hle] at hn
        have h20 : (20 : ℚ) * t + 201 = 20 * n := by
          simp only [TEMPERATURE_STEP, WARM_TEMPERATURE, COLD_TEMPERATURE] at hn
          field_simp at hn
          linarith
        have hz : (20 : ℤ) * t + 201 = 20 * n := by exact_mod_cast h20
        omega
      · exact min_eq_right hge
    · intro hmin
      rw [hmin]
      exact ⟨344, by norm_num [WARM_TEMPERATURE]⟩
  · rw [decreaseTemperature_single w k hg hp, ht]
  · constructor
    · rintro ⟨n, hn⟩
      rcases le_total ((t : ℚ) - TEMPERATURE_STEP) COLD_TEMPERATURE with hle | hge
      · exact max_eq_right hle
      · exfalso
        rw [max_eq_left hge] at hn
        have h20 : (20 : ℚ) * t - 201 = 20 * n := by
          simp only [TEMPERATURE_STEP, WARM_TEMPERATURE, COLD_TEMPERATURE] at hn
          field_simp at hn
          linarith
        have hz : (20 : ℤ) * t - 201 = 20 * n := by exact_mod_cast h20
        omega
    · intro hmax
      rw [hmax]
      exact ⟨143, by norm_num [COLD_TEMPERATURE]⟩

/-- C9 witness: from temperature 200 the increase run returns the computed
(unclamped, non-integer) step result. -/
theorem temperature_integer_iff_clamped_witness :
    (increaseTemperature (constWorld false 50 200) [ep1]).2.2 =
      .ok (some (min (((200 : ℤ) : ℚ) + TEMPERATURE_STEP) WARM_TEMPERATURE)) :=
  ((temperature_integer_iff_clamped (constWorld false 50 200) ep1 200
      (by norm_num [constWorld]) (by norm_num) (by norm_num) rfl rfl).1).1

end Elgato
